import Mathlib

/-!
Verification development for the homedeck rendering & interaction engine.

This file gives a shallow embedding, in Lean 4, of the parts of the
repository that the specification's claims are about:

* the style-layer fingerprint of `IconLayer.__hash__` (src/homedeck/icons.py),
* the single-flight remote-fetch bookkeeping of `IconProvider`
  (`_request_icon` / `_worker`, src/homedeck/icons.py),
* the page-navigation stack of `HomeDeck`
  (`page_go_to` / `page_go_back` / `page_go_previous` / `page_go_next`,
  src/homedeck/homedeck.py),
* one tick of the sleep/dim power loop `HomeDeck._keep_alive`
  (src/homedeck/homedeck.py),
* the tap/hold disambiguation of `HomeDeck._read_packets`
  (src/homedeck/homedeck.py),
* the visibility pass, system-button insertion, pagination loop and
  frame diff of `PageElement.render_buttons` / `PageElement._insert_button_at`
  (src/homedeck/elements.py).

Python `dict`s keyed by integers are modelled as association lists
`List (Int × α)` built only through `dictSet` (update-if-present,
else append), which preserves the "no duplicate keys, insertion order"
shape of a Python dict.  Machine reals produced by `time.time()` are
modelled as rationals.  Python exceptions of interest (`IndexError`)
are modelled with `Except`.
-/

namespace HomeDeck

/-- A Python value, as far as the embedded code inspects values:
booleans, `None`, strings and ints.  Equality on `PyVal` mirrors
Python `==` on these types (values of different types are unequal,
which matches CPython for `bool`/`str`/`None`/`int` except for the
`bool`/`int` overlap, never exercised here). -/
inductive PyVal where
  | bool (b : Bool)
  | none
  | str (s : String)
  | int (n : Int)
deriving DecidableEq, Repr

/-! ## C1 — style-layer fingerprint (`IconLayer.__hash__`, icons.py 192-199)

```python
def __hash__(self):
    if not self._hash:
        icon_fields = list(self._icon.keys())
        sorted_fields = {key: self._icon[key] for key in icon_fields}
        joined = '-'.join([f'{key}{str(value).upper()}' for key, value in sorted_fields.items()])
        self._hash = hash('-'.join([self._icon['icon_source'].value, self._name, joined]))
    return self._hash * (1 if self.is_available() else -1)
```

The attribute mapping `self._icon` is modelled as an insertion-ordered
association list of (key, `str(value)`) pairs; note that the dict
comprehension named `sorted_fields` iterates `icon_fields` in dict
insertion order (it does not sort).  Python's `hash` is a fixed
deterministic function of the joined string, so the digest is modelled
by the string that is hashed, and the `* (1 | -1)` availability flip
by a boolean component. -/

/-- `'-'.join(parts)`. -/
def joinDash (parts : List String) : String :=
  String.intercalate "-" parts

/-- The `joined` string of `IconLayer.__hash__`: attribute pairs in
insertion order, each rendered `f'{key}{str(value).upper()}'`. -/
def layerJoined (attrs : List (String × String)) : String :=
  joinDash (attrs.map (fun kv => kv.1 ++ kv.2.toUpper))

/-- The full string passed to `hash(...)` in `IconLayer.__hash__`. -/
def layerHashContent (iconSourceValue name : String)
    (attrs : List (String × String)) : String :=
  joinDash [iconSourceValue, name, layerJoined attrs]

/-- The layer fingerprint: the hashed content together with the
availability sign (`* (1 if self.is_available() else -1)`). -/
def layerFingerprint (iconSourceValue name : String)
    (attrs : List (String × String)) (available : Bool) : String × Bool :=
  (layerHashContent iconSourceValue name attrs, available)

/-! ## C2 — single-flight fetch bookkeeping (`IconProvider`, icons.py 361-434)

```python
def _request_icon(self, icon):
    if icon.download_url in self._requested:
        return
    loop.create_task(self._create_download_task(icon))

async def _create_download_task(self, icon):
    self._requested.add(icon.download_url)
    await self._queue.put(icon)
    await self._worker()

async def _worker(self):
    icon = await self._queue.get()
    if icon.is_available():
        self._queue.task_done(); return
    try:
        ... response = await client.get(url, timeout=5)
        if response.status_code == 200: ...write file...; publish(DECK_FORCE_RELOAD)
    finally:
        if icon.id in self._requested:
            self._requested.remove(icon.id)
        self._queue.task_done()
```

`self._requested` is a Python `set` holding download-URL strings but
probed/removed with `icon.id` (an `int`), so its elements are modelled
as `PyVal`s. -/

/-- A remote icon layer, as consumed by the provider: its download URL
and its `id` (which is `IconLayer.__hash__`, an int). -/
structure RemoteIconL where
  downloadUrl : String
  hashId : Int
deriving DecidableEq, Repr

/-- The mutable state of `IconProvider`: the fetch queue and the
pending (`_requested`) set. -/
structure IconProviderState where
  queue : List RemoteIconL
  requested : List PyVal
deriving DecidableEq, Repr

/-- `IconProvider._request_icon` followed by the start of
`_create_download_task`: a request for a URL already in `_requested`
is dropped, otherwise the URL is added and the icon is enqueued.
Returns the new state and whether a download task was created. -/
def requestIcon (s : IconProviderState) (icon : RemoteIconL) :
    IconProviderState × Bool :=
  if PyVal.str icon.downloadUrl ∈ s.requested then (s, false)
  else
    ({ queue := s.queue ++ [icon],
       requested := s.requested ++ [PyVal.str icon.downloadUrl] }, true)

/-- One run of `IconProvider._worker` for a queued icon whose source
file is not yet available: the fetch either succeeds (`fetchOk`) or
fails (non-2xx / timeout).  Either way, the `finally` block removes
`icon.id` from `_requested` when present.  Nothing is re-enqueued. -/
def workerStep (s : IconProviderState) (fetchOk : Bool) : IconProviderState :=
  match s.queue with
  | [] => s
  | icon :: rest =>
      let _ := fetchOk  -- a successful fetch writes the file and publishes
                        -- DECK_FORCE_RELOAD; neither touches this state
      let req := if PyVal.int icon.hashId ∈ s.requested
                 then s.requested.erase (PyVal.int icon.hashId)
                 else s.requested
      { queue := rest, requested := req }

/-! ## C3 / C9 — page navigation stack (homedeck.py 401-439)

```python
def page_go_to(self, page_id, page_number=1, append_stack=True):
    if not self._configuration.has_page(page_id): return
    if append_stack: self._pages_stack.append((page_id, page_number))
    self._current_page_id = page_id
    self._current_page_number = page_number
    self.reload_current_page()

def page_go_back(self):
    if self._pages_stack: self._pages_stack.pop()
    target_page, page_number = self._pages_stack[-1] if self._pages_stack else ('$root', 1)
    self.page_go_to(target_page, page_number=page_number, append_stack=False)

def page_go_previous(self):
    target_page, page_number = self._pages_stack[-1]
    page_number = max(1, self._current_page_number - 1)
    self._pages_stack[-1] = (target_page, page_number)
    self._current_page_number = page_number
    self.reload_current_page()

def page_go_next(self):
    target_page, page_number = self._pages_stack[-1]
    page_number = self._current_page_number + 1
    self._pages_stack[-1] = (target_page, page_number)
    self._current_page_number = page_number
    self.reload_current_page()
```

`self._pages_stack[-1]` on an empty list raises `IndexError`, modelled
with `Except`.  `reload_current_page` renders the current page and does
not touch the stack, so it is omitted from the navigation state. -/

/-- Python `IndexError`. -/
inductive PyError where
  | indexError
deriving DecidableEq, Repr

/-- Navigation state of `HomeDeck`: the page stack (top is the last
element, as in the Python list) and the current page id/number. -/
structure NavState where
  stack : List (String × Int)
  currentPageId : String
  currentPageNumber : Int
deriving DecidableEq, Repr

/-- `HomeDeck.page_go_to`.  `hasPage` is `Configuration.has_page`. -/
def pageGoTo (hasPage : String → Bool) (pageId : String) (pageNumber : Int)
    (appendStack : Bool) (s : NavState) : NavState :=
  if ¬ hasPage pageId then s
  else
    { stack := if appendStack then s.stack ++ [(pageId, pageNumber)] else s.stack,
      currentPageId := pageId,
      currentPageNumber := pageNumber }

/-- `HomeDeck.page_go_back`. -/
def pageGoBack (hasPage : String → Bool) (s : NavState) : NavState :=
  let stack1 := s.stack.dropLast
  let tgt := stack1.getLast?.getD ("$root", 1)
  pageGoTo hasPage tgt.1 tgt.2 false { s with stack := stack1 }

/-- `HomeDeck.page_go_previous`; reading `self._pages_stack[-1]` on an
empty stack raises `IndexError`. -/
def pageGoPrevious (s : NavState) : Except PyError NavState :=
  match s.stack.getLast? with
  | Option.none => Except.error PyError.indexError
  | some (targetPage, _) =>
      let pageNumber := max 1 (s.currentPageNumber - 1)
      Except.ok { stack := s.stack.dropLast ++ [(targetPage, pageNumber)],
                  currentPageId := s.currentPageId,
                  currentPageNumber := pageNumber }

/-- `HomeDeck.page_go_next`; reading `self._pages_stack[-1]` on an
empty stack raises `IndexError`. -/
def pageGoNext (s : NavState) : Except PyError NavState :=
  match s.stack.getLast? with
  | Option.none => Except.error PyError.indexError
  | some (targetPage, _) =>
      let pageNumber := s.currentPageNumber + 1
      Except.ok { stack := s.stack.dropLast ++ [(targetPage, pageNumber)],
                  currentPageId := s.currentPageId,
                  currentPageNumber := pageNumber }

/-- The state at device-session start: `_reset` sets
`self._pages_stack = []`, then `reload_all` runs
`self.page_go_to('$root', 1, append_stack=True)`. -/
def initialNav (hasPage : String → Bool) : NavState :=
  pageGoTo hasPage "$root" 1 true { stack := [], currentPageId := "", currentPageNumber := 0 }

/-- The `has_page` function of a configuration whose only page is the
root page (the smallest configuration `reload_all` accepts). -/
def rootOnly : String → Bool := fun pageId => pageId == "$root"

/-! ## C5 — one tick of `HomeDeck._keep_alive` (homedeck.py 234-257)

```python
if self._sleep_status == SleepStatus.SLEEP or self._last_action_time <= 0:
    continue
sleep_config = self._configuration.sleep
if not sleep_config:
    continue
diff = time.time() - self._last_action_time
if sleep_config.sleep_timeout > 0 and diff > sleep_config.sleep_timeout:
    self._sleep()
elif sleep_config.dim_timeout > 0 and self._sleep_status != SleepStatus.DIM \
        and diff > sleep_config.dim_timeout:
    self._sleep_status = SleepStatus.DIM
    self._device.set_brightness(sleep_config.dim_brightness)
```

with `_sleep` from homedeck.py 267-271:

```python
def _sleep(self):
    self._device.set_brightness(0)
    self._sleep_status = SleepStatus.SLEEP
    self._last_action_time = time.time()
```
-/

/-- `SleepStatus` (enums.py). -/
inductive SleepStatus where
  | wake
  | dim
  | sleep
deriving DecidableEq, Repr

/-- `SleepConfig` (dataclasses.py 26-31). -/
structure SleepConfig where
  dimBrightness : Int
  dimTimeout : Int
  sleepTimeout : Int
deriving DecidableEq, Repr

/-- The power-relevant state of `HomeDeck`: sleep status, the
brightness last sent to the device, and `_last_action_time`. -/
structure PowerState where
  status : SleepStatus
  brightness : Int
  lastActionTime : ℚ
deriving DecidableEq, Repr

/-- One iteration of the `_keep_alive` loop body at wall-clock time
`now` (the `keep_alive()` device call has no engine-visible effect). -/
def keepAliveTick (cfg : Option SleepConfig) (now : ℚ) (s : PowerState) :
    PowerState :=
  if s.status = SleepStatus.sleep ∨ s.lastActionTime ≤ 0 then s
  else
    match cfg with
    | Option.none => s
    | some c =>
        let diff := now - s.lastActionTime
        if 0 < c.sleepTimeout ∧ (c.sleepTimeout : ℚ) < diff then
          { status := SleepStatus.sleep, brightness := 0, lastActionTime := now }
        else if 0 < c.dimTimeout ∧ s.status ≠ SleepStatus.dim ∧ (c.dimTimeout : ℚ) < diff then
          { s with status := SleepStatus.dim, brightness := c.dimBrightness }
        else s

/-! ## C6 — tap/hold disambiguation (`HomeDeck._read_packets`, homedeck.py 158-232)

```python
async def hold_timer_callback():
    nonlocal is_holding, press_time, hold_timer
    current_time = time.time()
    diff_time = current_time - press_time
    if diff_time >= hold_threshold:
        is_holding = True
        hold_timer = None
        await self._on_interacted(InteractionType.HOLD, button_index, button_state)

async for command in self._device.read_packet():
    if isinstance(command, ButtonAction):
        ...
        if hold_timer:
            hold_timer.cancel()
            hold_timer = None
        ... # sleep handling, skipped entirely while SleepStatus.WAKE
        if command.pressed:
            press_time = time.time()
            is_holding = False
            hold_timer = set_timeout(hold_timer_callback, hold_threshold)
            ...
        else:
            if not is_holding:
                await self._on_interacted(InteractionType.TAP, button_index, button_state)
            is_holding = False
```

The event loop is embedded as a deterministic time-ordered trace
semantics over an awake device (`self._sleep_status == SleepStatus.WAKE`,
so the sleep block falls through): each device event carries its
wall-clock time; a scheduled hold timer whose fire time is not after
the next event's time runs before that event, and a timer still
pending after the last event fires then. -/

/-- `InteractionType` (enums.py). -/
inductive Interaction where
  | tap
  | hold
deriving DecidableEq, Repr

/-- `hold_threshold = 0.5`. -/
def holdThreshold : ℚ := 1 / 2

/-- The `nonlocal` state of the tap/hold classifier: `is_holding`,
`press_time`, and the pending hold timer (its scheduled fire time). -/
structure HoldState where
  isHolding : Bool
  pressTime : ℚ
  holdTimer : Option ℚ
deriving DecidableEq, Repr

/-- `hold_timer_callback`, running at time `tf`. -/
def fireTimer (tf : ℚ) (s : HoldState) : HoldState × List Interaction :=
  if holdThreshold ≤ tf - s.pressTime then
    ({ s with isHolding := true, holdTimer := Option.none }, [Interaction.hold])
  else
    ({ s with holdTimer := Option.none }, [])

/-- Handling one `ButtonAction` at time `t` while awake: cancel any
pending hold timer; on press record the press time, clear `is_holding`
and schedule the timer; on release emit a tap unless holding, then
clear `is_holding`. -/
def handleEvent (t : ℚ) (pressed : Bool) (s : HoldState) :
    HoldState × List Interaction :=
  let s := { s with holdTimer := Option.none }
  if pressed then
    ({ isHolding := false, pressTime := t, holdTimer := some (t + holdThreshold) }, [])
  else
    (({ s with isHolding := false }),
     if s.isHolding then [] else [Interaction.tap])

/-- Run a time-ordered trace of `(time, pressed)` device events,
firing a due hold timer before the event that follows it and flushing
a still-pending timer after the last event.  Returns the emitted
interactions in order. -/
def runEvents : List (ℚ × Bool) → HoldState → List Interaction
  | [], s =>
      match s.holdTimer with
      | some tf => (fireTimer tf s).2
      | Option.none => []
  | (t, p) :: rest, s =>
      match s.holdTimer with
      | some tf =>
          if tf ≤ t then
            let fired := fireTimer tf s
            let handled := handleEvent t p fired.1
            fired.2 ++ handled.2 ++ runEvents rest handled.1
          else
            let handled := handleEvent t p s
            handled.2 ++ runEvents rest handled.1
      | Option.none =>
          let handled := handleEvent t p s
          handled.2 ++ runEvents rest handled.1

/-- The classifier state when `_read_packets` starts: not holding, no
pending timer, `press_time = 0`. -/
def initHold : HoldState :=
  { isHolding := false, pressTime := 0, holdTimer := Option.none }

/-! ## C4 / C7 / C8 / C10 — `PageElement.render_buttons` (elements.py 191-310)

A Python `dict` keyed by ints is modelled as an association list in
insertion order with no duplicate keys; `dictSet` is `d[k] = v`
(update the existing binding in place, else append), `dlookup` is key
lookup, `dGet` is `d.get(k)` collapsed with the stored value (both a
missing key and a stored `None` read back as `None`, exactly as the
diff step treats them). -/

/-- `d[k] = v` on a Python dict: replace the binding if the key is
present, otherwise append it. -/
def dictSet (d : List (Int × α)) (k : Int) (v : α) : List (Int × α) :=
  if d.any (fun kv => kv.1 == k) then
    d.map (fun kv => if kv.1 == k then (k, v) else kv)
  else
    d ++ [(k, v)]

/-- Key lookup in a Python dict. -/
def dlookup (d : List (Int × α)) (k : Int) : Option α :=
  match d with
  | [] => Option.none
  | kv :: rest => if kv.1 = k then some kv.2 else dlookup rest k

/-- `d.get(k)` for a dict whose values are optional button records:
a missing key and a stored `None` both give `None`. -/
def dGet (d : List (Int × Option α)) (k : Int) : Option α :=
  match dlookup d k with
  | some v => v
  | Option.none => Option.none

/-- A (transformed) button record as it sits in `buttons_raw` /
`new_raws`: its `visibility` entry (absent key = dict without the key,
defaulted to `True` by `button.get('visibility', True)`) and an opaque
`payload` standing for every other key of the dict; records compare by
deep value equality, as `DeepDiff` does. -/
structure RawBtn where
  visibility : Option PyVal := some (PyVal.bool true)
  payload : Nat := 0
deriving DecidableEq, Repr

/-- `button.get('visibility', True)` (elements.py 247). -/
def visValue (b : RawBtn) : PyVal :=
  b.visibility.getD (PyVal.bool true)

/-- `visibility is False or visibility == 'False' or visibility == 'hidden'`
(elements.py 248). -/
def isHidden (v : PyVal) : Bool :=
  v == PyVal.bool false || v == PyVal.str "False" || v == PyVal.str "hidden"

/-- `visibility is None or visibility == 'None' or visibility == 'gone'`
(elements.py 249). -/
def isGone (v : PyVal) : Bool :=
  v == PyVal.none || v == PyVal.str "None" || v == PyVal.str "gone"

/-- Modelled from the spec: step 1 of the render algorithm — label-style
defaulting, the live-state merge of entity icon / per-state override /
friendly name (`deep_merge` from utils.py) and template rendering
(`render_template` from template.py) — depends on modules that are not
in src/.  Per the spec the style resolver is pure in its inputs, so the
whole step is abstracted as a pure function `resolve` from the raw
button record (here already paired with the fixed live state) to the
resolved record.  The identity function is the resolver of a button
with no entity, no templates and no unset label fields. -/
abbrev Resolver := RawBtn → RawBtn

/-- The visibility/compaction loop of `render_buttons`
(elements.py 207-262): walk `enumerate(deepcopy(...buttons_raw))`; a
falsy entry is stored at its raw `index` as `None`; otherwise the
button is resolved, a *gone* button is skipped (incrementing
`total_skipped`), and the rest are stored at
`real_index = index - total_skipped`, *hidden* ones as `None`. -/
def visLoop (resolve : Resolver) :
    List (Option RawBtn) → Int → Int → List (Int × Option RawBtn) →
    List (Int × Option RawBtn)
  | [], _, _, acc => acc
  | Option.none :: rest, idx, skipped, acc =>
      visLoop resolve rest (idx + 1) skipped (dictSet acc idx Option.none)
  | some b :: rest, idx, skipped, acc =>
      let rb := resolve b
      let v := visValue rb
      let stored : Option RawBtn := if isHidden v then Option.none else some rb
      if isGone v then
        visLoop resolve rest (idx + 1) (skipped + 1) acc
      else
        visLoop resolve rest (idx + 1) skipped (dictSet acc (idx - skipped) stored)

/-- The `new_raws` dict produced by the visibility pass, starting from
`index = 0`, `total_skipped = 0` and an empty dict. -/
def visPass (resolve : Resolver) (buttons : List (Option RawBtn)) :
    List (Int × Option RawBtn) :=
  visLoop resolve buttons 0 0 []

/-- The visibility pass on a list of non-null buttons, written as a
direct recursion (proved equal to `visPass` on such lists): gone
buttons vanish, the others are numbered consecutively from `base`,
hidden ones as `None`. -/
def simpleVis (resolve : Resolver) : List RawBtn → Int → List (Int × Option RawBtn)
  | [], _ => []
  | b :: rest, base =>
      let rb := resolve b
      let v := visValue rb
      if isGone v then simpleVis resolve rest base
      else (base, if isHidden v then Option.none else some rb) :: simpleVis resolve rest (base + 1)

/-- The number of non-gone buttons of a list (the slots they occupy). -/
def keptCount (resolve : Resolver) : List RawBtn → Int
  | [] => 0
  | b :: rest =>
      if isGone (visValue (resolve b)) then keptCount resolve rest
      else keptCount resolve rest + 1

/-- `PageElement._shift_index_right` (elements.py 191-192):
`{k + (1 if k >= start_index else 0): v for k, v in buttons.items()}`. -/
def shiftIndexRight (d : List (Int × α)) (startIndex : Int) : List (Int × α) :=
  d.map (fun kv => (kv.1 + (if startIndex ≤ kv.1 then 1 else 0), kv.2))

/-- `PageElement._insert_button_at` (elements.py 194-200), acting on
the raws dict: shift keys at or beyond `index` right by one, then
store the button at `index`. -/
def insertButtonAt (d : List (Int × Option RawBtn)) (button : RawBtn)
    (index : Int) : List (Int × Option RawBtn) :=
  dictSet (shiftIndexRight d index) index (some button)

/-- `SystemButtonConfig` (dataclasses.py 231-234). -/
structure SysBtn where
  button : RawBtn
  position : Int
deriving DecidableEq, Repr

/-- The three system buttons `render_buttons` reads from
`system_buttons` (keys `PAGE_BACK`, `PAGE_PREVIOUS`, `PAGE_NEXT`). -/
structure SysButtons where
  back : SysBtn
  previous : SysBtn
  next : SysBtn
deriving DecidableEq, Repr

/-- One iteration of the pagination `while` loop (elements.py 269-287)
acting on the raws dict `d`.  Note that the "next page" test
`start + buttons_per_page < len(new_raws)` reads the *local*
`new_raws`, which is rebound only at the end of the loop body, so it
measures `d` as it was at the start of the iteration — before the
back/previous insertions of this same iteration. -/
def paginateBody (sys : SysButtons) (isSubPage : Bool) (buttonsPerPage : Int)
    (start tmpPageNumber : Int) (d : List (Int × Option RawBtn)) :
    List (Int × Option RawBtn) :=
  let d1 := if isSubPage ∧ tmpPageNumber = 1 ∧ 0 < sys.back.position then
              insertButtonAt d sys.back.button (start + (sys.back.position - 1))
            else d
  let d2 := if 1 < tmpPageNumber ∧ 0 < sys.previous.position then
              insertButtonAt d1 sys.previous.button (start + (sys.previous.position - 1))
            else d1
  if start + buttonsPerPage < (d.length : Int) then
    insertButtonAt d2 sys.next.button (start + (sys.next.position - 1))
  else d2

/-- The pagination `while start < len(new_raws)` loop, with explicit
fuel; `none` means the fuel ran out before the loop condition became
false (in particular the loop does not terminate if no finite fuel
suffices). -/
def paginateLoop (sys : SysButtons) (isSubPage : Bool) (buttonsPerPage : Int) :
    Nat → Int → Int → List (Int × Option RawBtn) →
    Option (List (Int × Option RawBtn))
  | fuel, start, tmpPageNumber, d =>
      if start < (d.length : Int) then
        match fuel with
        | 0 => Option.none
        | fuel + 1 =>
            paginateLoop sys isSubPage buttonsPerPage fuel
              (start + buttonsPerPage) (tmpPageNumber + 1)
              (paginateBody sys isSubPage buttonsPerPage start tmpPageNumber d)
      else some d

/-- The page-limiting step (elements.py 291, 307-308): keep the keys in
`range((page_number-1)*C, page_number*C)` and re-key them modulo `C`. -/
def pageSlice (d : List (Int × Option RawBtn)) (buttonsPerPage pageNumber : Int) :
    List (Int × Option RawBtn) :=
  (d.filter (fun kv =>
      (pageNumber - 1) * buttonsPerPage ≤ kv.1 ∧ kv.1 < pageNumber * buttonsPerPage)).map
    (fun kv => (kv.1 % buttonsPerPage, kv.2))

/-- The diff step (elements.py 294-304): for each on-page slot compare
`old_raws.get(index)` with
`new_raws.get(index + (page_number - 1) * buttons_per_page)` by deep
value equality; the changed slots are those whose records differ. -/
def diffSlots (oldRaws newRaws : List (Int × Option RawBtn))
    (buttonsPerPage pageNumber : Int) : List Nat :=
  (List.range buttonsPerPage.toNat).filter (fun i =>
    dGet oldRaws (i : Int) ≠ dGet newRaws ((i : Int) + (pageNumber - 1) * buttonsPerPage))

/-- The outcome of one `render_buttons` call: the stored page-limited
`_button_raws` (retained for the next call's diff), the changed slot
indices, and the returned boolean `bool(self._changed_button_elements)`. -/
structure RenderResult where
  raws : List (Int × Option RawBtn)
  changed : List Nat
  hasChanges : Bool
deriving DecidableEq, Repr

/-- `PageElement.render_buttons` (elements.py 202-310): resolve and
compact the configured buttons, paginate (inserting system buttons),
diff the current page's slots against the previous call's stored raws,
and store the current page's slice.  `oldRaws` is `self._button_raws`
as left by the previous call; `none` means the pagination loop ran out
of fuel. -/
def renderButtons (resolve : Resolver) (sys : SysButtons) (isSubPage : Bool)
    (buttonsPerPage pageNumber : Int) (fuel : Nat)
    (cfgButtons : List (Option RawBtn))
    (oldRaws : List (Int × Option RawBtn)) : Option RenderResult :=
  let newRaws0 := visPass resolve cfgButtons
  match paginateLoop sys isSubPage buttonsPerPage fuel 0 1 newRaws0 with
  | Option.none => Option.none
  | some newRaws =>
      let changed := diffSlots oldRaws newRaws buttonsPerPage pageNumber
      some { raws := pageSlice newRaws buttonsPerPage pageNumber,
             changed := changed,
             hasChanges := !changed.isEmpty }

/-! # Theorems -/

/-- Claim C1 (code bug): the fingerprint of `IconLayer.__hash__` is *not*
insertion-order independent.  Two attribute mappings with equal key/value
sets (`Multiset` equality) whose keys were inserted in different orders
produce different hashed content, hence different fingerprints — the dict
comprehension named `sorted_fields` iterates `list(self._icon.keys())`
without sorting. -/
theorem C1_fingerprint_depends_on_insertion_order :
    (([("icon_padding", "0"), ("icon_brightness", "50")] : Multiset (String × String))
        = ([("icon_brightness", "50"), ("icon_padding", "0")] : Multiset (String × String))) ∧
    layerFingerprint "blank" "" [("icon_padding", "0"), ("icon_brightness", "50")] true
      ≠ layerFingerprint "blank" "" [("icon_brightness", "50"), ("icon_padding", "0")] true := by
  decide

/-- Claim C2 (code bug): after a failed fetch the download URL is still
treated as in-flight.  A first `_request_icon` adds the URL to
`_requested` and starts a download; the worker's `finally` block removes
`icon.id` (an int) rather than `icon.download_url` (a string) from the
set, so the URL survives the failed fetch, and a later `_request_icon`
for the same URL is dropped without starting a new fetch — contradicting
the claim that the next render attempt triggers a new fetch request. -/
theorem C2_failed_fetch_url_stays_in_flight :
    requestIcon ⟨[], []⟩ ⟨"https://icons.example/home.svg", 12345⟩
      = (⟨[⟨"https://icons.example/home.svg", 12345⟩],
          [PyVal.str "https://icons.example/home.svg"]⟩, true) ∧
    workerStep ⟨[⟨"https://icons.example/home.svg", 12345⟩],
                [PyVal.str "https://icons.example/home.svg"]⟩ false
      = ⟨[], [PyVal.str "https://icons.example/home.svg"]⟩ ∧
    requestIcon ⟨[], [PyVal.str "https://icons.example/home.svg"]⟩
        ⟨"https://icons.example/home.svg", 12345⟩
      = (⟨[], [PyVal.str "https://icons.example/home.svg"]⟩, false) := by
  decide

/-- Claim C3 (code bug): the stack-never-empty invariant fails.  From the
session-start state (stack `[("$root", 1)]`), a single `page_go_back`
leaves the *empty* stack — the pop is followed by `page_go_to(...,
append_stack=False)`, which does not re-push the floor entry — even
though the current page does stay (`$root`, 1). -/
theorem C3_goback_at_floor_empties_stack :
    (initialNav rootOnly).stack = [("$root", 1)] ∧
    (pageGoBack rootOnly (initialNav rootOnly)).stack = [] ∧
    (pageGoBack rootOnly (initialNav rootOnly)).currentPageId = "$root" ∧
    (pageGoBack rootOnly (initialNav rootOnly)).currentPageNumber = 1 := by
  decide

/-- Claim C9: `page_go_previous` and `page_go_next` read
`self._pages_stack[-1]` without guarding against emptiness, so on every
state with an empty stack they raise `IndexError`; and the empty stack
is reachable, because `page_go_back` from the session-start state pops
the last entry and renavigates to the root without re-pushing it. -/
theorem C9_previous_next_on_empty_stack (s : NavState) (h : s.stack = []) :
    pageGoPrevious s = Except.error PyError.indexError ∧
    pageGoNext s = Except.error PyError.indexError ∧
    (pageGoBack rootOnly (initialNav rootOnly)).stack = [] := by
  refine ⟨?_, ?_, by decide⟩ <;> simp [pageGoPrevious, pageGoNext, h]

/-- Witness for C9 at the concrete post-`page_go_back` state. -/
theorem C9_previous_next_on_empty_stack_witness :
    pageGoPrevious ⟨[], "$root", 1⟩ = Except.error PyError.indexError ∧
    pageGoNext ⟨[], "$root", 1⟩ = Except.error PyError.indexError ∧
    (pageGoBack rootOnly (initialNav rootOnly)).stack = [] :=
  C9_previous_next_on_empty_stack ⟨[], "$root", 1⟩ rfl

/-- Claim C5 as stated is false at the boundary: with dim timeout 10,
sleep timeout 30 and idle time exactly 10 (last action at 1, tick at
11), the claim requires the Awake device to become Dimmed (idle ≥ dim
timeout), but `_keep_alive` compares with strict `>` and leaves the
device Awake. -/
theorem C5_dim_at_exact_timeout_counterexample :
    keepAliveTick (some ⟨1, 10, 30⟩) 11 ⟨SleepStatus.wake, 100, 1⟩
      = ⟨SleepStatus.wake, 100, 1⟩ ∧
    (11 : ℚ) - 1 = ((10 : Int) : ℚ) ∧
    (keepAliveTick (some ⟨1, 10, 30⟩) 11 ⟨SleepStatus.wake, 100, 1⟩).status
      ≠ SleepStatus.dim := by
  refine ⟨by norm_num [keepAliveTick], by norm_num, ?_⟩
  norm_num [keepAliveTick]
  decide

/-- Claim C5, amended to the strict comparisons the code performs: on a
tick with non-zero dim and sleep timeouts and a positive last-activity
time, an Awake device whose idle time is strictly greater than the dim
timeout and at most the sleep timeout becomes Dimmed with brightness
reduced to the configured dim level, and an Awake or Dimmed device
whose idle time is strictly greater than the sleep timeout becomes
Asleep with brightness zero. -/
theorem C5_power_tick_strict (c : SleepConfig) (now : ℚ) (s : PowerState)
    (hdim : 0 < c.dimTimeout) (hsleep : 0 < c.sleepTimeout)
    (hlast : 0 < s.lastActionTime) :
    (s.status = SleepStatus.wake →
      (c.dimTimeout : ℚ) < now - s.lastActionTime →
      now - s.lastActionTime ≤ (c.sleepTimeout : ℚ) →
      keepAliveTick (some c) now s
        = { s with status := SleepStatus.dim, brightness := c.dimBrightness }) ∧
    ((s.status = SleepStatus.wake ∨ s.status = SleepStatus.dim) →
      (c.sleepTimeout : ℚ) < now - s.lastActionTime →
      keepAliveTick (some c) now s
        = { status := SleepStatus.sleep, brightness := 0, lastActionTime := now }) := by
  constructor
  · intro hw hd hs
    unfold keepAliveTick
    dsimp only
    split_ifs with h1 h2 h3
    · rcases h1 with h | h
      · exact absurd h (by rw [hw]; decide)
      · linarith
    · exact absurd h2.2 (by linarith)
    · rfl
    · refine absurd ⟨hdim, ?_, hd⟩ h3
      rw [hw]
      decide
  · intro hw hsl
    unfold keepAliveTick
    dsimp only
    split_ifs with h1 h2 h3
    · rcases h1 with h | h
      · rcases hw with hw | hw
        · exact absurd h (by rw [hw]; decide)
        · exact absurd h (by rw [hw]; decide)
      · linarith
    · rfl
    · exact absurd ⟨hsleep, hsl⟩ h2
    · exact absurd ⟨hsleep, hsl⟩ h2

/-- Witness for C5: dim timeouts 10/30, last action at 1; a tick at 12
dims, a tick at 32 sleeps. -/
theorem C5_power_tick_strict_witness :
    (keepAliveTick (some ⟨1, 10, 30⟩) 12 ⟨SleepStatus.wake, 100, 1⟩).status
      = SleepStatus.dim ∧
    (keepAliveTick (some ⟨1, 10, 30⟩) 32 ⟨SleepStatus.wake, 100, 1⟩).status
      = SleepStatus.sleep := by
  constructor
  · rw [(C5_power_tick_strict ⟨1, 10, 30⟩ 12 ⟨SleepStatus.wake, 100, 1⟩
        (by norm_num) (by norm_num) (by norm_num)).1 rfl (by norm_num) (by norm_num)]
  · rw [(C5_power_tick_strict ⟨1, 10, 30⟩ 32 ⟨SleepStatus.wake, 100, 1⟩
        (by norm_num) (by norm_num) (by norm_num)).2 (Or.inl rfl) (by norm_num)]

/-- Claim C6: tap/hold disambiguation.  For a press at `t0` followed by
its release at `t1`: if the release comes strictly before the 500 ms
hold threshold, exactly one Tap and no Hold is emitted; if no release
comes before the threshold, exactly one Hold is emitted when the timer
fires and the eventual release emits nothing (its Tap is suppressed by
`is_holding`). -/
theorem C6_tap_hold (t0 t1 : ℚ) (hlt : t0 < t1) :
    (t1 - t0 < holdThreshold →
      runEvents [(t0, true), (t1, false)] initHold = [Interaction.tap]) ∧
    (holdThreshold ≤ t1 - t0 →
      runEvents [(t0, true), (t1, false)] initHold = [Interaction.hold]) := by
  have step1 : runEvents [(t0, true), (t1, false)] initHold
      = runEvents [(t1, false)] ⟨false, t0, some (t0 + holdThreshold)⟩ := by
    simp [runEvents, handleEvent, initHold]
  constructor
  · intro h
    have hnot : ¬ (t0 + holdThreshold ≤ t1) := by
      intro hc; rw [holdThreshold] at *; linarith
    rw [step1]
    simp [runEvents, handleEvent, hnot]
  · intro h
    have hyes : t0 + holdThreshold ≤ t1 := by
      rw [holdThreshold] at *; linarith
    have hfire : holdThreshold ≤ (t0 + holdThreshold) - t0 := by
      rw [holdThreshold]; linarith
    rw [step1]
    simp [runEvents, handleEvent, fireTimer, hyes, hfire]

/-- Witness for C6: press at 0 with release at 0.2 s taps, press at 0
with release at 0.6 s holds. -/
theorem C6_tap_hold_witness :
    runEvents [(0, true), (1/5, false)] initHold = [Interaction.tap] ∧
    runEvents [(0, true), (3/5, false)] initHold = [Interaction.hold] :=
  ⟨(C6_tap_hold 0 (1/5) (by norm_num)).1 (by rw [holdThreshold]; norm_num),
   (C6_tap_hold 0 (3/5) (by norm_num)).2 (by rw [holdThreshold]; norm_num)⟩

/-- After `_shift_index_right`, the insertion index is free: every key
`k < i` stays `k` and every key `k ≥ i` becomes `k + 1`, so no key
equals `i`. -/
theorem shiftIndexRight_no_key (d : List (Int × Option RawBtn)) (i : Int) :
    (shiftIndexRight d i).any (fun kv => kv.1 == i) = false := by
  induction d with
  | nil => rfl
  | cons kv rest ih =>
    have hc : shiftIndexRight (kv :: rest) i
        = (kv.1 + (if i ≤ kv.1 then 1 else 0), kv.2) :: shiftIndexRight rest i := rfl
    rw [hc, List.any_cons, ih, Bool.or_false]
    simp only [beq_eq_false_iff_ne, ne_eq]
    split_ifs with h <;> omega

/-- `_insert_button_at` always grows the dict by exactly one entry (the
assignment after the shift never overwrites an existing key). -/
theorem insertButtonAt_length (d : List (Int × Option RawBtn)) (b : RawBtn) (i : Int) :
    (insertButtonAt d b i).length = d.length + 1 := by
  unfold insertButtonAt dictSet
  rw [shiftIndexRight_no_key]
  simp [shiftIndexRight]

/-- One pagination iteration inserts at most two system buttons (back
xor previous, plus possibly next). -/
theorem paginateBody_length_le (sys : SysButtons) (isSub : Bool) (C start tmp : Int)
    (d : List (Int × Option RawBtn)) :
    (paginateBody sys isSub C start tmp d).length ≤ d.length + 2 := by
  unfold paginateBody
  split_ifs with h1 h2 h3 <;>
    simp only [insertButtonAt_length] <;> omega

/-- A pagination iteration never removes entries. -/
theorem paginateBody_length_ge (sys : SysButtons) (isSub : Bool) (C start tmp : Int)
    (d : List (Int × Option RawBtn)) :
    d.length ≤ (paginateBody sys isSub C start tmp d).length := by
  unfold paginateBody
  split_ifs with h1 h2 h3 <;>
    simp only [insertButtonAt_length] <;> omega

/-- Claim C10: with `buttons_per_page ≥ 3` the pagination loop of
`render_buttons` terminates on every input — each iteration inserts at
most two system buttons while the cursor advances by
`buttons_per_page`, so fuel `len(new_raws) - start` suffices — and with
`buttons_per_page = 0` (the parameter's default) and at least one
rendered button the loop never terminates: the cursor stays at 0,
`start + 0 < len(new_raws)` stays true, and every finite fuel runs
out. -/
theorem C10_pagination_termination (sys : SysButtons) (isSub : Bool) :
    (∀ C : Int, 3 ≤ C → ∀ (fuel : Nat) (start tmp : Int) (d : List (Int × Option RawBtn)),
       (d.length : Int) ≤ start + fuel →
       (paginateLoop sys isSub C fuel start tmp d).isSome = true) ∧
    (∀ d : List (Int × Option RawBtn), 1 ≤ d.length → ∀ (fuel : Nat) (tmp : Int),
       paginateLoop sys isSub 0 fuel 0 tmp d = Option.none) := by
  constructor
  · intro C hC fuel
    induction fuel with
    | zero =>
      intro start tmp d h
      unfold paginateLoop
      rw [if_neg (by push_cast at h ⊢; omega)]
      simp
    | succ n ih =>
      intro start tmp d h
      unfold paginateLoop
      split_ifs with hlt
      · exact ih (start + C) (tmp + 1) _
          (by have hle := paginateBody_length_le sys isSub C start tmp d
              push_cast at h ⊢
              omega)
      · simp
  · intro d hd fuel
    induction fuel generalizing d with
    | zero =>
      intro tmp
      unfold paginateLoop
      rw [if_pos (by omega)]
    | succ n ih =>
      intro tmp
      unfold paginateLoop
      rw [if_pos (by omega)]
      have hge := paginateBody_length_ge sys isSub 0 0 tmp d
      have hz : (0 : Int) + 0 = 0 := by norm_num
      rw [hz]
      exact ih _ (by omega) _

/-- Witness for C10: a one-button page paginates with capacity 3 and
fuel 1, and diverges (returns `none` for any fuel, here 2) with
capacity 0. -/
theorem C10_pagination_termination_witness :
    (paginateLoop ⟨⟨{}, 1⟩, ⟨{}, 1⟩, ⟨{}, 3⟩⟩ false 3 1 0 1 [(0, some {})]).isSome = true ∧
    paginateLoop ⟨⟨{}, 1⟩, ⟨{}, 1⟩, ⟨{}, 3⟩⟩ false 0 2 0 1 [(0, some {})] = Option.none :=
  ⟨(C10_pagination_termination _ false).1 3 (by norm_num) 1 0 1 _ (by simp),
   (C10_pagination_termination _ false).2 _ (by simp) 2 1⟩

/-- A dict assignment with a fresh key appends the binding. -/
theorem dictSet_no_key (d : List (Int × α)) (k : Int) (v : α)
    (h : d.any (fun kv => kv.1 == k) = false) : dictSet d k v = d ++ [(k, v)] := by
  unfold dictSet
  rw [h]
  simp

/-- Lookup hits in the left part of an append are preserved. -/
theorem dlookup_append_left (xs ys : List (Int × α)) (k : Int) (v : α)
    (h : dlookup xs k = some v) : dlookup (xs ++ ys) k = some v := by
  induction xs with
  | nil => cases h
  | cons kv rest ih =>
    rw [List.cons_append]
    unfold dlookup at h ⊢
    split_ifs with hk
    · rwa [if_pos hk] at h
    · rw [if_neg hk] at h
      exact ih h

/-- Looking up a key absent from `xs` finds the binding appended after it. -/
theorem dlookup_append_right_of_no_key (xs : List (Int × α)) (k : Int) (v : α)
    (h : xs.any (fun kv => kv.1 == k) = false) :
    dlookup (xs ++ [(k, v)]) k = some v := by
  induction xs with
  | nil => simp [dlookup]
  | cons kv rest ih =>
    rw [List.any_cons, Bool.or_eq_false_iff] at h
    rw [List.cons_append]
    unfold dlookup
    rw [if_neg (by have := h.1; simp only [beq_eq_false_iff_ne, ne_eq] at this; exact this)]
    exact ih h.2

/-- `_insert_button_at` stores the inserted button at the requested
index (the index is fresh after the shift, so nothing is overwritten). -/
theorem dlookup_insertButtonAt_self (d : List (Int × Option RawBtn)) (b : RawBtn) (i : Int) :
    dlookup (insertButtonAt d b i) i = some (some b) := by
  unfold insertButtonAt
  rw [dictSet_no_key _ _ _ (shiftIndexRight_no_key d i)]
  exact dlookup_append_right_of_no_key _ _ _ (shiftIndexRight_no_key d i)

/-- `_shift_index_right` relocates the binding of `k` to `k + 1` when
`k ≥ start_index` and leaves it at `k` otherwise. -/
theorem dlookup_shiftIndexRight (d : List (Int × Option RawBtn)) (i k : Int) :
    dlookup (shiftIndexRight d i) (if i ≤ k then k + 1 else k) = dlookup d k := by
  induction d with
  | nil => cases (em (i ≤ k)) <;> rfl
  | cons kv rest ih =>
    have hc : shiftIndexRight (kv :: rest) i
        = (kv.1 + (if i ≤ kv.1 then 1 else 0), kv.2) :: shiftIndexRight rest i := rfl
    rw [hc]
    unfold dlookup
    by_cases hk : kv.1 = k
    · rw [if_pos (by subst hk; split_ifs <;> omega), if_pos hk]
    · rw [if_neg (by split_ifs <;> omega), if_neg hk]
      exact ih

/-- Every binding of the dict survives `_insert_button_at`, at its old
key if below the insertion index and shifted right by exactly one slot
otherwise. -/
theorem dlookup_insertButtonAt_preserve (e : List (Int × Option RawBtn)) (b : RawBtn)
    (i k : Int) (v : Option RawBtn) (hv : dlookup e k = some v) :
    dlookup (insertButtonAt e b i) (if i ≤ k then k + 1 else k) = some v := by
  unfold insertButtonAt
  rw [dictSet_no_key _ _ _ (shiftIndexRight_no_key e i)]
  refine dlookup_append_left _ _ _ _ ?_
  rw [dlookup_shiftIndexRight e i k]
  exact hv

/-- Claim C4, amended: during a pagination iteration, the "next page"
system button is inserted exactly when the number of entries of the
button map at the start of the iteration (before that iteration's
back/previous insertions) exceeds `start + buttons_per_page`; when it
is inserted it lands at the end of the current page (slot
`start + buttons_per_page - 1`, its configured position being the page
capacity); and every system-button insertion shifts all subsequent
buttons right by exactly one slot, never overwriting an existing
button.  The `position = buttons_per_page` hypothesis is modelled from
the spec: the system-button positions come from
`yaml/configuration.base.yml`, which is not in src/, and the spec
places the next-page button at the end of the current page. -/
theorem C4_next_button_insertion (sys : SysButtons) (isSub : Bool)
    (C start tmp : Int) (d : List (Int × Option RawBtn))
    (hpos : sys.next.position = C) :
    (start + C < (d.length : Int) →
      dlookup (paginateBody sys isSub C start tmp d) (start + C - 1)
        = some (some sys.next.button)) ∧
    (∀ (e : List (Int × Option RawBtn)) (b : RawBtn) (i : Int),
      (insertButtonAt e b i).length = e.length + 1 ∧
      ∀ (k : Int) (v : Option RawBtn), dlookup e k = some v →
        dlookup (insertButtonAt e b i) (if i ≤ k then k + 1 else k) = some v) := by
  constructor
  · intro hlt
    unfold paginateBody
    dsimp only
    rw [if_pos hlt, hpos]
    have he : start + (C - 1) = start + C - 1 := by ring
    rw [he]
    exact dlookup_insertButtonAt_self _ _ _
  · intro e b i
    exact ⟨insertButtonAt_length e b i,
           fun k v hv => dlookup_insertButtonAt_preserve e b i k v hv⟩

/-- Claim C4 as stated is false: on a sub-page with back-button
position 1, next-button position 3, capacity 3 and exactly three
logical buttons, the back insertion pushes the last logical button
(payload 2) beyond the first page's capacity (it ends at slot 4), yet
no next-page button (payload 102) is inserted anywhere — the check
`start + buttons_per_page < len(new_raws)` reads the length of the
map as it was before the back insertion. -/
theorem C4_boundary_overflow_counterexample :
    paginateLoop ⟨⟨⟨some (PyVal.bool true), 100⟩, 1⟩, ⟨⟨some (PyVal.bool true), 101⟩, 1⟩,
        ⟨⟨some (PyVal.bool true), 102⟩, 3⟩⟩ true 3 9 0 1
      [(0, some ⟨some (PyVal.bool true), 0⟩), (1, some ⟨some (PyVal.bool true), 1⟩),
       (2, some ⟨some (PyVal.bool true), 2⟩)]
    = some [(1, some ⟨some (PyVal.bool true), 0⟩), (2, some ⟨some (PyVal.bool true), 1⟩),
            (4, some ⟨some (PyVal.bool true), 2⟩), (0, some ⟨some (PyVal.bool true), 100⟩),
            (3, some ⟨some (PyVal.bool true), 101⟩)] ∧
    dlookup ([(1, some ⟨some (PyVal.bool true), 0⟩), (2, some ⟨some (PyVal.bool true), 1⟩),
            (4, some ⟨some (PyVal.bool true), 2⟩), (0, some ⟨some (PyVal.bool true), 100⟩),
            (3, some ⟨some (PyVal.bool true), 101⟩)] : List (Int × Option RawBtn)) 4
      = some (some ⟨some (PyVal.bool true), 2⟩) ∧
    (([(1, some ⟨some (PyVal.bool true), 0⟩), (2, some ⟨some (PyVal.bool true), 1⟩),
      (4, some ⟨some (PyVal.bool true), 2⟩), (0, some ⟨some (PyVal.bool true), 100⟩),
      (3, some ⟨some (PyVal.bool true), 101⟩)] : List (Int × Option RawBtn)).all
        (fun kv => kv.2 ≠ some ⟨some (PyVal.bool true), 102⟩)) = true := by
  decide

/-- No visibility value is both hidden and gone (the accepted value
sets are disjoint). -/
theorem isHidden_not_isGone (v : PyVal) (h : isHidden v = true) : isGone v = false := by
  cases v with
  | bool b => cases b <;> simp_all [isHidden, isGone]
  | none => simp_all [isHidden]
  | int n => simp_all [isHidden]
  | str s =>
    simp only [isHidden, Bool.or_eq_true, beq_iff_eq] at h
    rcases h with (h | h) | h
    · cases h
    · injection h with h
      subst h
      rfl
    · injection h with h
      subst h
      rfl

/-- On a button list with no falsy entries, the visibility loop of
`render_buttons` appends to its accumulator the direct-recursion form
`simpleVis`, numbering kept slots from `index - total_skipped`
(every accumulator key is below that, so each dict store appends). -/
theorem visLoop_eq_simpleVis (resolve : Resolver) (bs : List RawBtn) :
    ∀ (idx skipped : Int) (acc : List (Int × Option RawBtn)),
      (∀ kv ∈ acc, kv.1 < idx - skipped) →
      visLoop resolve (bs.map some) idx skipped acc
        = acc ++ simpleVis resolve bs (idx - skipped) := by
  induction bs with
  | nil =>
    intro idx sk acc h
    simp [visLoop, simpleVis]
  | cons b rest ih =>
    intro idx sk acc h
    simp only [List.map_cons, visLoop, simpleVis]
    by_cases hg : isGone (visValue (resolve b)) = true
    · rw [if_pos hg, if_pos hg]
      have he : idx + 1 - (sk + 1) = idx - sk := by ring
      have := ih (idx + 1) (sk + 1) acc (by rw [he]; exact h)
      rw [he] at this
      exact this
    · rw [if_neg hg, if_neg hg]
      have hfree : acc.any (fun kv => kv.1 == idx - sk) = false := by
        rw [List.any_eq_false]
        intro kv hkv
        simp only [beq_iff_eq]
        exact Int.ne_of_lt (h kv hkv)
      rw [dictSet_no_key _ _ _ hfree]
      have he : idx + 1 - sk = (idx - sk) + 1 := by ring
      have hb : ∀ kv ∈ acc ++ [(idx - sk,
          if isHidden (visValue (resolve b)) then Option.none else some (resolve b))],
          kv.1 < idx + 1 - sk := by
        intro kv hkv
        rcases List.mem_append.mp hkv with hmem | hmem
        · have := h kv hmem; omega
        · simp only [List.mem_singleton] at hmem
          subst hmem; omega
      have := ih (idx + 1) sk _ hb
      rw [this, he, List.append_assoc]
      rfl

/-- The visibility pass on non-null buttons in closed form. -/
theorem visPass_eq_simpleVis (resolve : Resolver) (bs : List RawBtn) :
    visPass resolve (bs.map some) = simpleVis resolve bs 0 := by
  have h := visLoop_eq_simpleVis resolve bs 0 0 [] (by simp)
  simpa [visPass] using h

/-- The compacted slots of a concatenation: the second part starts
after the first part's kept buttons. -/
theorem simpleVis_append (resolve : Resolver) (xs ys : List RawBtn) :
    ∀ base : Int, simpleVis resolve (xs ++ ys) base
      = simpleVis resolve xs base ++ simpleVis resolve ys (base + keptCount resolve xs) := by
  induction xs with
  | nil => intro base; simp [simpleVis, keptCount]
  | cons b rest ih =>
    intro base
    simp only [List.cons_append, List.append_eq, simpleVis, keptCount]
    by_cases hg : isGone (visValue (resolve b)) = true
    · rw [if_pos hg, if_pos hg, if_pos hg]
      exact ih base
    · rw [if_neg hg, if_neg hg, if_neg hg]
      rw [List.cons_append]
      have hrw := ih (base + 1)
      simp only [List.append_eq] at hrw ⊢
      rw [hrw]
      have he : base + 1 + keptCount resolve rest = base + (keptCount resolve rest + 1) := by ring
      rw [he]

/-- Renumbering the compacted slots from a shifted base shifts every
slot index by the same amount. -/
theorem simpleVis_shift (resolve : Resolver) (ys : List RawBtn) (d : Int) :
    ∀ base : Int, simpleVis resolve ys (base + d)
      = (simpleVis resolve ys base).map (fun kv => (kv.1 + d, kv.2)) := by
  induction ys with
  | nil => intro base; rfl
  | cons b rest ih =>
    intro base
    simp only [simpleVis]
    by_cases hg : isGone (visValue (resolve b)) = true
    · rw [if_pos hg, if_pos hg]
      exact ih base
    · rw [if_neg hg, if_neg hg]
      rw [List.map_cons]
      have he : base + d + 1 = (base + 1) + d := by ring
      rw [he, ih (base + 1)]

/-- Claim C7: visibility handling.  The hidden test accepts the boolean
`False` and the literal string forms `'False'`/`'hidden'`; the gone
test accepts `None` and the literal string forms `'None'`/`'gone'`.  A
hidden button keeps its slot with an empty record (`None`) while the
buttons after it are numbered one past it; a gone button is removed
entirely and every following button's effective slot index is exactly
one lower than it would be with the button visible (the buttons after
it continue at `keptCount xs` instead of `keptCount xs + 1`). -/
theorem C7_visibility (resolve : Resolver) (xs : List RawBtn) (b : RawBtn) (ys : List RawBtn) :
    (isHidden (PyVal.bool false) = true ∧ isHidden (PyVal.str "False") = true ∧
     isHidden (PyVal.str "hidden") = true ∧ isGone PyVal.none = true ∧
     isGone (PyVal.str "None") = true ∧ isGone (PyVal.str "gone") = true) ∧
    (isHidden (visValue (resolve b)) = true →
      visPass resolve ((xs ++ b :: ys).map some)
        = visPass resolve (xs.map some)
            ++ (keptCount resolve xs, (Option.none : Option RawBtn))
            :: (visPass resolve (ys.map some)).map
                 (fun kv => (kv.1 + (keptCount resolve xs + 1), kv.2))) ∧
    (isGone (visValue (resolve b)) = true →
      visPass resolve ((xs ++ b :: ys).map some)
        = visPass resolve (xs.map some)
            ++ (visPass resolve (ys.map some)).map
                 (fun kv => (kv.1 + keptCount resolve xs, kv.2))) := by
  refine ⟨by decide, ?_, ?_⟩
  · intro hh
    rw [visPass_eq_simpleVis, visPass_eq_simpleVis, visPass_eq_simpleVis]
    rw [simpleVis_append resolve xs (b :: ys) 0]
    simp only [simpleVis]
    rw [if_neg (by rw [isHidden_not_isGone _ hh]; exact Bool.false_ne_true), if_pos hh]
    rw [zero_add]
    have h1 : keptCount resolve xs + 1 = 0 + (keptCount resolve xs + 1) := by ring
    rw [h1, simpleVis_shift resolve ys (keptCount resolve xs + 1) 0]
    simp
  · intro hg
    rw [visPass_eq_simpleVis, visPass_eq_simpleVis, visPass_eq_simpleVis]
    rw [simpleVis_append resolve xs (b :: ys) 0]
    simp only [simpleVis]
    rw [if_pos hg, zero_add]
    have h1 : keptCount resolve xs = 0 + keptCount resolve xs := by ring
    rw [h1, simpleVis_shift resolve ys (keptCount resolve xs) 0]
    simp


/-- Witness for C7: a three-button page whose middle button is hidden
keeps slot 1 empty, and with the middle button gone the third button
moves down into slot 1. -/
theorem C7_visibility_witness :
    visPass id ([⟨some (PyVal.bool true), 0⟩, ⟨some (PyVal.str "hidden"), 7⟩,
        ⟨some (PyVal.bool true), 1⟩].map some)
      = [(0, some ⟨some (PyVal.bool true), 0⟩), (1, Option.none),
         (2, some ⟨some (PyVal.bool true), 1⟩)] ∧
    visPass id ([⟨some (PyVal.bool true), 0⟩, ⟨some PyVal.none, 8⟩,
        ⟨some (PyVal.bool true), 1⟩].map some)
      = [(0, some ⟨some (PyVal.bool true), 0⟩), (1, some ⟨some (PyVal.bool true), 1⟩)] := by
  constructor
  · have h := (C7_visibility id [⟨some (PyVal.bool true), 0⟩] ⟨some (PyVal.str "hidden"), 7⟩
        [⟨some (PyVal.bool true), 1⟩]).2.1 rfl
    exact h.trans (by decide)
  · have h := (C7_visibility id [⟨some (PyVal.bool true), 0⟩] ⟨some PyVal.none, 8⟩
        [⟨some (PyVal.bool true), 1⟩]).2.2 rfl
    exact h.trans (by decide)



/-- Witness for C4 (amended): on a root page of four buttons with
capacity 3 and next-button position 3, the first pagination iteration
puts the next button at slot 2, the end of page 1. -/
theorem C4_next_button_insertion_witness :
    dlookup (paginateBody ⟨⟨{}, 1⟩, ⟨{}, 1⟩, ⟨⟨some (PyVal.bool true), 102⟩, 3⟩⟩ false 3 0 1
        [(0, some {}), (1, some {}), (2, some {}), (3, some {})]) 2
      = some (some ⟨some (PyVal.bool true), 102⟩) := by
  have h := (C4_next_button_insertion ⟨⟨{}, 1⟩, ⟨{}, 1⟩, ⟨⟨some (PyVal.bool true), 102⟩, 3⟩⟩
      false 3 0 1 [(0, some {}), (1, some {}), (2, some {}), (3, some {})] rfl).1
      (by simp)
  have he : (0 : Int) + 3 - 1 = 2 := by norm_num
  rw [he] at h
  exact h

/-- The page-limited dict reads back exactly the page's slots: looking
up on-page slot `i` in `pageSlice d C p` finds the binding of absolute
key `(p-1)*C + i` in `d` (keys in the window re-keyed modulo `C` are
exactly offset by the window start, and keys outside the window can
never alias an on-page slot). -/
theorem dlookup_pageSlice (X : List (Int × Option RawBtn)) (C p i : Int)
    (hC : 1 ≤ C) (hi0 : 0 ≤ i) (hiC : i < C) :
    dlookup (pageSlice X C p) i = dlookup X ((p - 1) * C + i) := by
  induction X with
  | nil => rfl
  | cons kv rest ih =>
    have hpc : p * C = (p - 1) * C + C := by ring
    by_cases hw : (p - 1) * C ≤ kv.1 ∧ kv.1 < p * C
    · have hmod : kv.1 % C = kv.1 - (p - 1) * C := by
        have h0 : 0 ≤ kv.1 - (p - 1) * C := by omega
        have h2 : kv.1 - (p - 1) * C < C := by omega
        have hk : kv.1 = (kv.1 - (p - 1) * C) + C * (p - 1) := by ring
        rw [hk, Int.add_mul_emod_self_left, Int.emod_eq_of_lt h0 h2]
        ring_nf
      have hcons : pageSlice (kv :: rest) C p
          = (kv.1 % C, kv.2) :: pageSlice rest C p := by
        unfold pageSlice
        rw [List.filter_cons_of_pos (by simpa using hw)]
        rfl
      have hrhs : dlookup (kv :: rest) ((p - 1) * C + i)
          = if kv.1 = (p - 1) * C + i then some kv.2 else dlookup rest ((p - 1) * C + i) := rfl
      rw [hcons, hrhs]
      have hlhs : dlookup ((kv.1 % C, kv.2) :: pageSlice rest C p) i
          = if kv.1 % C = i then some kv.2 else dlookup (pageSlice rest C p) i := rfl
      rw [hlhs]
      by_cases hk : kv.1 = (p - 1) * C + i
      · rw [if_pos (by omega), if_pos hk]
      · rw [if_neg (by omega), if_neg hk]
        exact ih
    · have hcons : pageSlice (kv :: rest) C p = pageSlice rest C p := by
        unfold pageSlice
        rw [List.filter_cons_of_neg (by simpa using hw)]
      have hrhs : dlookup (kv :: rest) ((p - 1) * C + i)
          = if kv.1 = (p - 1) * C + i then some kv.2 else dlookup rest ((p - 1) * C + i) := rfl
      rw [hcons, hrhs, if_neg (by omega)]
      exact ih

/-- Claim C8: render idempotence.  If a `render_buttons` call with some
inputs succeeds (pagination fuel suffices), then a second call with the
identical page configuration, resolver, system buttons, page number and
capacity, starting from the state the first call stored, reports no
changes: its `changedSlots` is empty and its returned
`bool(changed)` is `false` — the stored page slice agrees with the
freshly recomputed raws on every on-page slot. -/
theorem C8_render_idempotent (resolve : Resolver) (sys : SysButtons) (isSub : Bool)
    (C p : Int) (fuel : Nat) (cfg : List (Option RawBtn))
    (s0 : List (Int × Option RawBtn)) (r1 : RenderResult) (hC : 1 ≤ C)
    (h1 : renderButtons resolve sys isSub C p fuel cfg s0 = some r1) :
    ∃ r2 : RenderResult,
      renderButtons resolve sys isSub C p fuel cfg r1.raws = some r2 ∧
      r2.changed = [] ∧ r2.hasChanges = false := by
  cases hX : paginateLoop sys isSub C fuel 0 1 (visPass resolve cfg) with
  | none =>
    rw [renderButtons, hX] at h1
    cases h1
  | some X =>
    rw [renderButtons, hX] at h1
    dsimp only at h1
    have h2 : r1 = { raws := pageSlice X C p,
                     changed := diffSlots s0 X C p,
                     hasChanges := !(diffSlots s0 X C p).isEmpty } :=
      (Option.some.inj h1).symm
    subst h2
    have hdiff : diffSlots (pageSlice X C p) X C p = [] := by
      unfold diffSlots
      rw [List.filter_eq_nil_iff]
      intro i hi
      have hiC : (i : Int) < C := by
        have := List.mem_range.mp hi
        omega
      simp only [decide_eq_true_eq, ne_eq, not_not, Decidable.not_not]
      have hl := dlookup_pageSlice X C p (i : Int) hC (by positivity) hiC
      unfold dGet
      rw [hl]
      have he : (p - 1) * C + (i : Int) = (i : Int) + (p - 1) * C := by ring
      rw [he]
    refine ⟨{ raws := pageSlice X C p, changed := [], hasChanges := false }, ?_, rfl, rfl⟩
    rw [renderButtons, hX]
    dsimp only
    rw [hdiff]
    rfl


/-- Witness for C8: a two-button page rendered with capacity 3 from the
state its own first render stored (that first render, from an empty
previous state, returned changed slots `[0, 1]`). -/
theorem C8_render_idempotent_witness :
    ∃ r2 : RenderResult,
      renderButtons id ⟨⟨{}, 1⟩, ⟨{}, 1⟩, ⟨{}, 3⟩⟩ false 3 1 5
          [some {}, some ⟨some (PyVal.bool true), 1⟩]
          [(0, some {}), (1, some ⟨some (PyVal.bool true), 1⟩)] = some r2 ∧
      r2.changed = [] ∧ r2.hasChanges = false :=
  C8_render_idempotent id ⟨⟨{}, 1⟩, ⟨{}, 1⟩, ⟨{}, 3⟩⟩ false 3 1 5
    [some {}, some ⟨some (PyVal.bool true), 1⟩] []
    ⟨[(0, some {}), (1, some ⟨some (PyVal.bool true), 1⟩)], [0, 1], true⟩
    (by norm_num) (by rfl)


end HomeDeck
